import Mathlib

/-!
Verification development for the ezcode repository: a collection of
near-duplicate HTTP backend revisions (Tissue AI) that keep a per-user
coin ledger and proxy generation requests to LLM vendors.

Shallow embedding conventions:
* JavaScript `Map` objects and database tables are modelled as association
  lists `List (String × α)` with `alookup` / `aset` mirroring `get` / `set`
  (upsert-in-place) semantics.
* JSON values are modelled by the inductive `Json`; JavaScript numbers are
  modelled as `Rat`.  A JavaScript value that may be `undefined` is
  `Option Json` with `none` standing for `undefined`.
* `JSON.parse` results are passed in as `Except String Json`
  (`Except.error` = the parse threw); a vendor-content string together
  with its parse result is a `JsStr`.
* Request bodies are modelled as records whose numeric fields
  (`coins`, `amount`) are numbers; the `typeof x === 'number'` guards of
  the validating revisions therefore always pass in this model and only
  their sign conditions remain.
* Thrown-and-caught JavaScript exceptions are `Except String`.
-/

namespace EzCode

/-! ### Association lists: JS `Map.get` / `Map.set` and keyed tables -/

/-- `Map.get(u)`: first entry with the given key, `none` when absent. -/
def alookup {α : Type} : List (String × α) → String → Option α
  | [], _ => none
  | (k, v) :: rest, u => if k = u then some v else alookup rest u

/-- `Map.set(u, v)`: replace the value in place when the key exists,
otherwise append the new entry. -/
def aset {α : Type} : List (String × α) → String → α → List (String × α)
  | [], u, v => [(u, v)]
  | (k, w) :: rest, u, v =>
    if k = u then (u, v) :: rest else (k, w) :: aset rest u v

/-! ### JSON values -/

/-- JSON values as produced by `JSON.parse`; numbers are rationals. -/
inductive Json where
  | null
  | bool (b : Bool)
  | num (q : Rat)
  | str (s : String)
  | arr (items : List Json)
  | obj (fields : List (String × Json))

/-- Field lookup inside a parsed JSON object (keys are unique after
`JSON.parse`, so first-match lookup is adequate). -/
def jLookup : List (String × Json) → String → Option Json
  | [], _ => none
  | (k, v) :: rest, u => if k = u then some v else jLookup rest u

/-- JavaScript property access `v[key]` on a possibly-`undefined` value:
accessing a property of `undefined` or `null` throws a `TypeError`;
on primitives and arrays the named properties used by this code
(`keyframes`, `parts`, `rot`, rig part names) are `undefined`. -/
def jsAccess : Option Json → String → Except String (Option Json)
  | none, key => .error ("Cannot read properties of undefined (reading " ++ key ++ ")")
  | some .null, key => .error ("Cannot read properties of null (reading " ++ key ++ ")")
  | some (.obj fs), key => .ok (jLookup fs key)
  | some (.bool _), _ => .ok none
  | some (.num _), _ => .ok none
  | some (.str _), _ => .ok none
  | some (.arr _), _ => .ok none

/-- JavaScript truthiness of a possibly-`undefined` value. -/
def truthyOpt : Option Json → Bool
  | none => false
  | some .null => false
  | some (.bool b) => b
  | some (.num q) => decide (q ≠ 0)
  | some (.str s) => decide (s ≠ "")
  | some (.arr _) => true
  | some (.obj _) => true

/-! ### validateAnimation (part_001, lines 176-201) -/

/-- Required rig parts for `r15` (part_001, line 180). -/
def r15Parts : List String :=
  ["Root", "Waist", "Neck", "LeftShoulder", "LeftElbow", "LeftWrist",
   "RightShoulder", "RightElbow", "RightWrist", "LeftHip", "LeftKnee",
   "LeftAnkle", "RightHip", "RightKnee", "RightAnkle"]

/-- Required rig parts for `r6` (part_001, line 181). -/
def r6Parts : List String :=
  ["Torso", "Head", "Left Arm", "Right Arm", "Left Leg", "Right Leg"]

/-- Result of `validateAnimation`: either `valid: true` or
`valid: false` with an error message. -/
inductive VResult where
  | valid
  | invalid (error : String)
deriving DecidableEq

/-- Body of the per-part check inside the keyframe loop:
`if (!kf.parts[part]) ... if (!Array.isArray(kf.parts[part].rot) || ...
rot.length !== 3)`.  `Except.error` = a thrown `TypeError`;
`Except.ok (some e)` = an early `return valid: false` with message `e`;
`Except.ok none` = the part passed. -/
def checkJoint (partsV : Option Json) (part : String) : Except String (Option String) :=
  match jsAccess partsV part with
  | .error e => .error e
  | .ok pv =>
    if truthyOpt pv then
      match jsAccess pv "rot" with
      | .error e => .error e
      | .ok rotv =>
        match rotv with
        | some (.arr r) =>
          if r.length = 3 then .ok none
          else .ok (some ("Invalid rotation for " ++ part))
        | _ => .ok (some ("Invalid rotation for " ++ part))
    else .ok (some ("Missing part: " ++ part))

/-- Inner loop `for (const part of requiredParts)`. -/
def checkKfParts (partsV : Option Json) : List String → Except String (Option String)
  | [] => .ok none
  | p :: ps =>
    match checkJoint partsV p with
    | .error e => .error e
    | .ok (some e) => .ok (some e)
    | .ok none => checkKfParts partsV ps

/-- One keyframe: evaluates `kf.parts` and then runs the part loop. -/
def checkKf (kf : Json) (parts : List String) : Except String (Option String) :=
  match jsAccess (some kf) "parts" with
  | .error e => .error e
  | .ok partsV => checkKfParts partsV parts

/-- Outer loop `for (const kf of parsed.keyframes)`. -/
def checkKfs (parts : List String) : List Json → Except String (Option String)
  | [] => .ok none
  | kf :: rest =>
    match checkKf kf parts with
    | .error e => .error e
    | .ok (some e) => .ok (some e)
    | .ok none => checkKfs parts rest

/-- The `try` block of `validateAnimation`: takes the result of
`JSON.parse(jsonStr)` (`Except.error` = the parse threw) and the rig type.
`Except.error` = an exception escaping to the `catch`.  The source
computes `requiredParts` up front; it is pure, so it is inlined at its
use site. -/
def validateAnimationBody (parse : Except String Json) (rigType : String) :
    Except String VResult :=
  match parse with
  | .error e => .error e
  | .ok parsed =>
    match jsAccess (some parsed) "keyframes" with
    | .error e => .error e
    | .ok kfv =>
      match kfv with
      | some (.arr kfs) =>
        match checkKfs (if rigType = "r15" then r15Parts else r6Parts) kfs with
        | .error e => .error e
        | .ok (some e) => .ok (.invalid e)
        | .ok none => .ok .valid
      | _ => .ok (.invalid "No keyframes array")

/-- `validateAnimation(jsonStr, rigType)` (part_001, lines 176-201): the
`try` body with the `catch (e)` returning `valid: false` with the thrown
message.  The string argument is represented by its `JSON.parse` result. -/
def validateAnimation (parse : Except String Json) (rigType : String) : VResult :=
  match validateAnimationBody parse rigType with
  | .ok r => r
  | .error e => .invalid e

/-! ### Claim-side validity predicate for C10 (from the claim's words) -/

/-- From the claim: a required part value must have a `rot` field that is
an array of exactly 3 elements. -/
def claimJointOK : Json → Bool
  | .obj fs =>
    match jLookup fs "rot" with
    | some (.arr r) => decide (r.length = 3)
    | _ => false
  | _ => false

/-- From the claim: the part is present in the parts object and its value
satisfies `claimJointOK`. -/
def claimPartOK (pfs : List (String × Json)) (p : String) : Bool :=
  match jLookup pfs p with
  | some v => claimJointOK v
  | none => false

/-- From the claim: a keyframe's `parts` object contains every required
part, each satisfying `claimJointOK`. -/
def claimKfOK (parts : List String) : Json → Bool
  | .obj fs =>
    match jLookup fs "parts" with
    | some (.obj pfs) => parts.all (claimPartOK pfs)
    | _ => false
  | _ => false

/-- From the claim: the required parts for a rig type — 15 named parts for
`r15`, 6 for `r6` (the claim names no others). -/
def claimRequiredParts (rigType : String) : List String :=
  if rigType = "r15" then r15Parts else if rigType = "r6" then r6Parts else []

/-- From the claim's words: the string parses as JSON containing a
`keyframes` array in which every keyframe's `parts` object contains every
required part for the rig type, each with a `rot` array of exactly 3
elements. -/
def claimedAnimationValid (parse : Except String Json) (rigType : String) : Bool :=
  match parse with
  | .error _ => false
  | .ok j =>
    match j with
    | .obj fs =>
      match jLookup fs "keyframes" with
      | some (.arr kfs) => kfs.all (claimKfOK (claimRequiredParts rigType))
      | _ => false
    | _ => false

/-- A joint value with a zero rotation, for concrete witnesses. -/
def zeroJoint : Json :=
  .obj [("rot", .arr [.num 0, .num 0, .num 0])]

/-- A concrete well-formed single-keyframe r15 animation document. -/
def sampleR15Anim : Json :=
  .obj [("keyframes", .arr
    [.obj [("time", .num 0),
           ("parts", .obj (r15Parts.map (fun p => (p, zeroJoint))))]])]

/-! ### Common HTTP-server modelling -/

/-- HTTP methods used by the servers. -/
inductive Method where
  | get
  | post
  | put
  | options
deriving DecidableEq

/-- A response-content string together with its `JSON.parse` result
(the parse is an oracle supplied with the string). -/
structure JsStr where
  raw : String
  parse : Except String Json

/-- Outcome of an awaited vendor `fetch`: `ok` is `response.ok`, and
`content` is `data.choices?.[0]?.message?.content` (`none` = absent or
`undefined`). -/
structure VendorResp where
  ok : Bool
  content : Option JsStr

/-- A parsed JSON request body, restricted to the fields the handlers
read.  Numeric fields are numbers (see the file comment); string fields
are `none` when absent. -/
structure ReqBody where
  coins : Rat
  amount : Rat
  systemPrompt : Option String
  prompt : Option String
  rigType : Option String

/-- One incoming request together with the environment and external-world
oracles the handler observes: `body` is the `parseBody` outcome, `apiKey`
is whether `process.env.OPENAI_API_KEY` is set, `vendor` is the primary
vendor-call outcome (`Except.error` = `fetch`/`await` threw), and
`retryO` is the `retryWithMini` outcome. -/
structure Request where
  method : Method
  path : List String
  body : Except String ReqBody
  apiKey : Bool
  vendor : Except String VendorResp
  retryO : Except String (Option JsStr)

/-- The parts of a JSON response the claims observe: HTTP status and the
`coins` field (when present). -/
structure Resp where
  status : Nat
  coins : Option Rat
deriving DecidableEq

/-- JS truthiness of an optional prompt string (`!body.prompt`). -/
def present : Option String → Bool
  | some s => decide (s ≠ "")
  | none => false

/-- The in-memory coin ledger `userCoins : Map`. -/
abbrev CoinStore := List (String × Rat)

/-- `userCoins.get(userId) || STARTING_COINS`: both a missing entry
(`undefined`) and a stored `0` are falsy, yielding the default 100. -/
def currentOr100 (st : CoinStore) (u : String) : Rat :=
  match alookup st u with
  | some c => if c = 0 then 100 else c
  | none => 100

/-- `pathname.split('/')[3]`: the third path segment (index 2 once the
leading empty segment is dropped), `''` when missing. -/
def seg3 (p : List String) : String := p.getD 2 ""

/-- The last path segment, for `pathname.endsWith('/add')`. -/
def lastSeg : List String → Option String
  | [] => none
  | [a] => some a
  | _ :: b :: rest => lastSeg (b :: rest)

/-! ### v4.0 server (src/index.js, first revision) -/

/-- GET `/api/coins/:userId` (v4.0, lines 54-63): create with 100 on
first access, then respond with the stored value. -/
def handleGetV40 (st : CoinStore) (u : String) : CoinStore × Resp :=
  match alookup st u with
  | none => (aset st u 100, ⟨200, some 100⟩)
  | some c => (st, ⟨200, some c⟩)

/-- PUT `/api/coins/:userId` (v4.0, lines 66-79): no validation at all;
stores `body.coins` as given. -/
def handlePutV40 (st : CoinStore) (u : String) (body : Except String ReqBody) :
    CoinStore × Resp :=
  match body with
  | .error _ => (st, ⟨400, none⟩)
  | .ok b => (aset st u b.coins, ⟨200, some b.coins⟩)

/-- POST `/api/coins/:userId/add` (v4.0, lines 82-93): no validation;
`current` uses the falsy-default `|| STARTING_COINS`. -/
def handleAddV40 (st : CoinStore) (u : String) (body : Except String ReqBody) :
    CoinStore × Resp :=
  match body with
  | .error _ => (st, ⟨400, none⟩)
  | .ok b =>
    (aset st u (currentOr100 st u + b.amount),
     ⟨200, some (currentOr100 st u + b.amount)⟩)

/-- POST `/api/generate/:type` (v4.0, lines 96-224): response status as a
function of the environment, body and vendor outcome.  The handler never
touches `userCoins`. -/
def genV40 (apiKey : Bool) (body : Except String ReqBody)
    (vendor : Except String VendorResp) : Nat :=
  match body with
  | .error _ => 400
  | .ok b =>
    if apiKey = false then 500
    else if present b.systemPrompt = false ∨ present b.prompt = false then 400
    else
      match vendor with
      | .error _ => 500
      | .ok v =>
        if v.ok = false then 500
        else
          match v.content with
          | none => 500
          | some c => if c.raw.trim = "" then 500 else 200

/-- The v4.0 request dispatcher (src/index.js, lines 33-227).  Route
predicates translate the source's string tests on `pathname` to path
segments: `startsWith('/api/coins/')` = the first two segments are
`api`, `coins` and a third exists; `endsWith('/add')` = the last segment
is `add`. -/
def stepV40 (req : Request) (st : CoinStore) : CoinStore × Resp :=
  if req.method = .options then (st, ⟨204, none⟩)
  else if req.path = ["test"] ∧ req.method = .get then (st, ⟨200, none⟩)
  else if req.path.take 2 = ["api", "coins"] ∧ 3 ≤ req.path.length ∧
      req.method = .get then
    handleGetV40 st (seg3 req.path)
  else if req.path.take 2 = ["api", "coins"] ∧ 3 ≤ req.path.length ∧
      ¬ lastSeg req.path = some "add" ∧ req.method = .put then
    handlePutV40 st (seg3 req.path) req.body
  else if lastSeg req.path = some "add" ∧ req.method = .post then
    handleAddV40 st (seg3 req.path) req.body
  else if req.path.take 2 = ["api", "generate"] ∧ 3 ≤ req.path.length ∧
      req.method = .post then
    (st, ⟨genV40 req.apiKey req.body req.vendor, none⟩)
  else (st, ⟨404, none⟩)

/-! ### v7.0 server (part_001): validation, retry, and coin guards -/

/-- Result of the animation generation flow: a 200 response with the
parsed payload, or a 500 failure. -/
inductive FlowResult where
  | success (payload : Json)
  | failure500

/-- `JSON.parse` applied to a possibly-`undefined` content value:
`JSON.parse(undefined)` throws a syntax error. -/
def parseOf : Option JsStr → Except String Json
  | none => .error "Unexpected token u in JSON at position 0"
  | some s => s.parse

/-- The tail of the generate handler (part_001, lines 524-553): the
`!content || content.trim() === ''` check and the final
`JSON.parse(content)` whose exception is caught as a 500. -/
def finishFlow (c : Option JsStr) (calls : List String) : FlowResult × List String :=
  match c with
  | none => (.failure500, calls)
  | some s =>
    if s.raw.trim = "" then (.failure500, calls)
    else
      match s.parse with
      | .error _ => (.failure500, calls)
      | .ok j => (.success j, calls)

/-- The animation validation-and-retry block (part_001, lines 489-529)
together with the response tail.  `c0` is the primary call's content
(the primary call, model `gpt-5.1` at line 442, has already happened, so
the call list starts with it); `retryO` is the `retryWithMini` outcome,
whose single further call uses model `gpt-5.1` (line 222). -/
def animationFlow (rig : String) (c0 : Option JsStr)
    (retryO : Except String (Option JsStr)) : FlowResult × List String :=
  if validateAnimation (parseOf c0) rig = .valid then
    finishFlow c0 ["gpt-5.1"]
  else
    match retryO with
    | .error _ => (.failure500, ["gpt-5.1", "gpt-5.1"])
    | .ok c1 =>
      if validateAnimation (parseOf c1) rig = .valid then
        finishFlow c1 ["gpt-5.1", "gpt-5.1"]
      else (.failure500, ["gpt-5.1", "gpt-5.1"])

/-- `body.rigType || 'r15'`. -/
def rigOr15 : Option String → String
  | some s => if s = "" then "r15" else s
  | none => "r15"

/-- The valid generation types (part_001, line 387). -/
def validTypes : List String := ["animation", "vfx", "script", "ui"]

/-- HTTP status of a flow result. -/
def statusOfFlow : FlowResult → Nat
  | .success _ => 200
  | .failure500 => 500

/-- POST `/api/generate/:type` (part_001, lines 384-567): response status.
The handler never touches `userCoins`. -/
def genV70 (ty : String) (body : Except String ReqBody) (apiKey : Bool)
    (vendor : Except String VendorResp) (retryO : Except String (Option JsStr)) : Nat :=
  if ¬ ty ∈ validTypes then 400
  else
    match body with
    | .error _ => 400
    | .ok b =>
      if apiKey = false then 500
      else if present b.prompt = false ∨ present b.systemPrompt = false then 400
      else
        match vendor with
        | .error _ => 500
        | .ok v =>
          if v.ok = false then 500
          else if ty = "animation" then
            statusOfFlow (animationFlow (rigOr15 b.rigType) v.content retryO).1
          else statusOfFlow (finishFlow v.content []).1

/-- GET `/api/coins/:userId` (part_001, lines 290-307): as v4.0 plus the
`if (!userId)` guard. -/
def handleGetV70 (st : CoinStore) (u : String) : CoinStore × Resp :=
  if u = "" then (st, ⟨400, none⟩)
  else
    match alookup st u with
    | none => (aset st u 100, ⟨200, some 100⟩)
    | some c => (st, ⟨200, some c⟩)

/-- PUT `/api/coins/:userId` (part_001, lines 312-344): rejects a
negative `coins` value (the `typeof` part of the guard always passes in
this numeric-body model). -/
def handlePutV70 (st : CoinStore) (u : String) (body : Except String ReqBody) :
    CoinStore × Resp :=
  if u = "" then (st, ⟨400, none⟩)
  else
    match body with
    | .error _ => (st, ⟨400, none⟩)
    | .ok b =>
      if b.coins < 0 then (st, ⟨400, none⟩)
      else (aset st u b.coins, ⟨200, some b.coins⟩)

/-- POST `/api/coins/:userId/add` (part_001, lines 349-379): rejects a
non-positive `amount`. -/
def handleAddV70 (st : CoinStore) (u : String) (body : Except String ReqBody) :
    CoinStore × Resp :=
  if u = "" then (st, ⟨400, none⟩)
  else
    match body with
    | .error _ => (st, ⟨400, none⟩)
    | .ok b =>
      if b.amount ≤ 0 then (st, ⟨400, none⟩)
      else
        (aset st u (currentOr100 st u + b.amount),
         ⟨200, some (currentOr100 st u + b.amount)⟩)

/-- The part_001 (v7.0) request dispatcher (lines 253-571). -/
def stepV70 (req : Request) (st : CoinStore) : CoinStore × Resp :=
  if req.method = .options then (st, ⟨204, none⟩)
  else if req.path = ["test"] ∧ req.method = .get then (st, ⟨200, none⟩)
  else if req.path.take 2 = ["api", "coins"] ∧ 3 ≤ req.path.length ∧
      req.method = .get then
    handleGetV70 st (seg3 req.path)
  else if req.path.take 2 = ["api", "coins"] ∧ 3 ≤ req.path.length ∧
      ¬ lastSeg req.path = some "add" ∧ req.method = .put then
    handlePutV70 st (seg3 req.path) req.body
  else if lastSeg req.path = some "add" ∧ req.method = .post then
    handleAddV70 st (seg3 req.path) req.body
  else if req.path.take 2 = ["api", "generate"] ∧ 3 ≤ req.path.length ∧
      req.method = .post then
    (st, ⟨genV70 (seg3 req.path) req.body req.apiKey req.vendor req.retryO, none⟩)
  else (st, ⟨404, none⟩)

/-- Run a sequence of requests against the part_001 server. -/
def runV70 (reqs : List Request) (st : CoinStore) : CoinStore :=
  reqs.foldl (fun s r => (stepV70 r s).1) st

/-! ### PostgreSQL revision (part_002) -/

/-- A row of the `user_coins` table (part_002, lines 18-24). -/
structure SqlRow where
  coins : Rat
  last_updated : Nat
deriving DecidableEq

abbrev SqlTable := List (String × SqlRow)

/-- GET `/api/coins/:userId` (part_002, lines 46-69): SELECT, and on an
empty result INSERT `(userId, 100)` (the `last_updated` column takes its
`CURRENT_TIMESTAMP` default) and respond 100. -/
def sqlGetCoins (tbl : SqlTable) (u : String) (now : Nat) : SqlTable × Rat :=
  match alookup tbl u with
  | none => (aset tbl u ⟨100, now⟩, 100)
  | some r => (tbl, r.coins)

/-- PUT `/api/coins/:userId` (part_002, lines 72-90): upsert setting
`coins` and `last_updated = CURRENT_TIMESTAMP`. -/
def sqlPutCoins (tbl : SqlTable) (u : String) (c : Rat) (now : Nat) : SqlTable × Rat :=
  (aset tbl u ⟨c, now⟩, c)

/-- POST `/api/coins/:userId/add` (part_002, lines 93-117): upsert that
inserts `coins = amount` for a new user, otherwise adds the amount, and
sets `last_updated = CURRENT_TIMESTAMP`; returns the resulting coins. -/
def sqlAddCoins (tbl : SqlTable) (u : String) (a : Rat) (now : Nat) : SqlTable × Rat :=
  match alookup tbl u with
  | none => (aset tbl u ⟨a, now⟩, a)
  | some r => (aset tbl u ⟨r.coins + a, now⟩, r.coins + a)

/-! ### Firebase revision (part_004) -/

/-- Accumulate a decimal-digit prefix, stopping at the first non-digit. -/
def digitsVal : List Char → Nat → Nat
  | [], acc => acc
  | c :: cs, acc =>
    if c.isDigit then digitsVal cs (acc * 10 + (c.toNat - 48)) else acc

/-- `parseInt(s)` restricted to the shapes user ids take: an optional
sign followed by a digit prefix; `none` models `NaN`. -/
def jsParseInt (s : String) : Option Int :=
  match s.data with
  | [] => none
  | c :: cs =>
    if c = '-' then
      match cs with
      | d :: _ => if d.isDigit then some (-(digitsVal cs 0 : Int)) else none
      | [] => none
    else if c.isDigit then some ((digitsVal (c :: cs) 0 : Int))
    else none

/-- The Firebase document written for a user (part_004, lines 236-240):
`coins`, `lastUpdated: Date.now()`, `userId: parseInt(userId)`. -/
structure FbDoc where
  coins : Rat
  lastUpdated : Nat
  userId : Option Int
deriving DecidableEq

abbrev FbStore := List (String × FbDoc)

/-- GET `/api/coins/:userId` (part_004, lines 208-224): a read-only
Firebase fetch.  A missing document answers `coins: 100, isNew: true`;
an existing one answers `data.coins || 100` with `isNew: false`.  No
write is performed. -/
def fbGetCoins (db : FbStore) (u : String) : FbStore × (Rat × Bool) :=
  match alookup db u with
  | none => (db, (100, true))
  | some d => (db, (if d.coins = 0 then 100 else d.coins, false))

/-- PUT `/api/coins/:userId` (part_004, lines 227-253): overwrites the
user's document with `coins`, `lastUpdated = Date.now()` and the parsed
user id (the `typeof coins` guard always passes in this numeric model). -/
def fbPutCoins (db : FbStore) (u : String) (c : Rat) (now : Nat) : FbStore × Resp :=
  (aset db u ⟨c, now, jsParseInt u⟩, ⟨200, some c⟩)

/-! ### Rate limiter (part_003, lines 17-34) -/

/-- One entry of the `rateLimits` map. -/
structure RateEntry where
  count : Nat
  resetTime : Nat
deriving DecidableEq

abbrev RLState := List (String × RateEntry)

/-- `checkRateLimit(userId)` with `Date.now()` passed explicitly:
default entry `count: 0, resetTime: now + 60000` when absent; reset to a
fresh window when `now > resetTime`; refuse at `count >= 20`; otherwise
increment and admit. -/
def checkRateLimit (now : Nat) (userId : String) (st : RLState) : Bool × RLState :=
  let userLimit := (alookup st userId).getD ⟨0, now + 60000⟩
  if userLimit.resetTime < now then
    (true, aset st userId ⟨1, now + 60000⟩)
  else if 20 ≤ userLimit.count then
    (false, st)
  else
    (true, aset st userId ⟨userLimit.count + 1, userLimit.resetTime⟩)

/-- Run `checkRateLimit` for one user at a sequence of times, collecting
the admission answers. -/
def runChecks (u : String) : List Nat → RLState → List Bool
  | [], _ => []
  | t :: ts, st =>
    (checkRateLimit t u st).1 :: runChecks u ts (checkRateLimit t u st).2

/-! ### Token-limit maps (src/index.js, v4.0 lines 124-129 and v4.1 lines 460-465) -/

/-- `maxTokens` map of the v4.0 revision, with the `|| 5000` default. -/
def maxTokensV40 (t : String) : Nat :=
  if t = "animation" then 12000
  else if t = "vfx" then 5000
  else if t = "script" then 8000
  else if t = "ui" then 6000
  else 5000

/-- `maxTokens` map of the v4.1 revision, with the `|| 8000` default. -/
def maxTokensV41 (t : String) : Nat :=
  if t = "animation" then 20000
  else if t = "vfx" then 8000
  else if t = "script" then 12000
  else if t = "ui" then 10000
  else 8000

/-! ## Theorems -/

theorem alookup_aset_self {α : Type} (l : List (String × α)) (u : String) (v : α) :
    alookup (aset l u v) u = some v := by
  induction l with
  | nil => simp [aset, alookup]
  | cons p rest ih =>
    obtain ⟨k, w⟩ := p
    by_cases h : k = u
    · simp [aset, alookup, h]
    · simp [aset, alookup, h, ih]

theorem alookup_aset_ne {α : Type} (l : List (String × α)) (u k : String) (v : α)
    (h : u ≠ k) : alookup (aset l k v) u = alookup l u := by
  have hku : k ≠ u := fun hh => h hh.symm
  induction l with
  | nil => simp [aset, alookup, hku]
  | cons p rest ih =>
    obtain ⟨k', w⟩ := p
    by_cases hk : k' = k
    · subst hk
      simp [aset, alookup, hku]
    · simp only [aset, if_neg hk]
      by_cases hu : k' = u
      · simp [alookup, hu]
      · simp [alookup, hu, ih]

theorem mem_aset {α : Type} (l : List (String × α)) (u : String) (v : α) :
    ∀ p ∈ aset l u v, p ∈ l ∨ p = (u, v) := by
  induction l with
  | nil =>
    intro p hp
    simp only [aset, List.mem_singleton] at hp
    exact Or.inr hp
  | cons q rest ih =>
    obtain ⟨k, w⟩ := q
    intro p hp
    by_cases h : k = u
    · simp only [aset] at hp
      rw [if_pos h] at hp
      rcases List.mem_cons.mp hp with h1 | h1
      · exact Or.inr h1
      · exact Or.inl (List.mem_cons_of_mem _ h1)
    · simp only [aset] at hp
      rw [if_neg h] at hp
      rcases List.mem_cons.mp hp with h1 | h1
      · exact Or.inl (h1 ▸ List.mem_cons_self _ _)
      · rcases ih p h1 with h2 | h2
        · exact Or.inl (List.mem_cons_of_mem _ h2)
        · exact Or.inr h2

theorem alookup_mem {α : Type} (l : List (String × α)) (u : String) (v : α)
    (h : alookup l u = some v) : (u, v) ∈ l := by
  induction l with
  | nil => simp [alookup] at h
  | cons p rest ih =>
    obtain ⟨k, w⟩ := p
    simp only [alookup] at h
    by_cases hk : k = u
    · subst hk
      rw [if_pos rfl] at h
      injection h with h
      subst h
      exact List.mem_cons_self _ _
    · rw [if_neg hk] at h
      exact List.mem_cons_of_mem _ (ih h)

theorem finishFlow_calls (c : Option JsStr) (calls : List String) :
    (finishFlow c calls).2 = calls := by
  cases c with
  | none => rfl
  | some s =>
    simp only [finishFlow]
    split_ifs
    · rfl
    · cases s.parse <;> rfl

theorem currentOr100_nonneg (st : CoinStore) (u : String)
    (h : ∀ p ∈ st, 0 ≤ p.2) : 0 ≤ currentOr100 st u := by
  unfold currentOr100
  cases hg : alookup st u with
  | none => norm_num
  | some c =>
    by_cases hc : c = 0
    · simp [hc]
    · simp only [if_neg hc]
      exact h (u, c) (alookup_mem st u c hg)

theorem stepV70_preserves_nonneg (req : Request) (st : CoinStore)
    (h : ∀ p ∈ st, 0 ≤ p.2) : ∀ p ∈ (stepV70 req st).1, 0 ≤ p.2 := by
  unfold stepV70
  split_ifs with h1 h2 h3 h4 h5 h6
  · exact h
  · exact h
  · unfold handleGetV70
    split_ifs
    · exact h
    · cases hg : alookup st (seg3 req.path) with
      | none =>
        intro p hp
        rcases mem_aset _ _ _ p hp with hmem | rfl
        · exact h p hmem
        · norm_num
      | some c => exact h
  · unfold handlePutV70
    split_ifs
    · exact h
    · cases hb : req.body with
      | error e => exact h
      | ok b =>
        dsimp only
        split_ifs with hneg
        · exact h
        · intro p hp
          rcases mem_aset _ _ _ p hp with hmem | rfl
          · exact h p hmem
          · exact le_of_not_lt hneg
  · unfold handleAddV70
    split_ifs
    · exact h
    · cases hb : req.body with
      | error e => exact h
      | ok b =>
        dsimp only
        split_ifs with hle
        · exact h
        · intro p hp
          rcases mem_aset _ _ _ p hp with hmem | rfl
          · exact h p hmem
          · have h0 := currentOr100_nonneg st (seg3 req.path) h
            have ha : 0 < b.amount := lt_of_not_le hle
            simp only
            linarith
  · exact h
  · exact h

theorem checkJoint_ok_iff (pfs : List (String × Json)) (p : String) :
    checkJoint (some (.obj pfs)) p = .ok none ↔ claimPartOK pfs p = true := by
  simp only [checkJoint, jsAccess, claimPartOK]
  cases h : jLookup pfs p with
  | none => simp [truthyOpt]
  | some v =>
    cases v with
    | null => simp [truthyOpt, claimJointOK]
    | bool b => cases b <;> simp [truthyOpt, jsAccess, claimJointOK]
    | num q =>
      by_cases hq : q = 0 <;> simp [truthyOpt, hq, jsAccess, claimJointOK]
    | str s =>
      by_cases hs : s = "" <;> simp [truthyOpt, hs, jsAccess, claimJointOK]
    | arr items => simp [truthyOpt, jsAccess, claimJointOK]
    | obj fs2 =>
      simp only [truthyOpt, if_true, jsAccess, claimJointOK]
      cases h2 : jLookup fs2 "rot" with
      | none => simp
      | some rv =>
        cases rv with
        | null => simp
        | bool b => simp
        | num q => simp
        | str s => simp
        | obj fs3 => simp
        | arr r => by_cases hr : r.length = 3 <;> simp [hr]

theorem checkKfParts_ok_iff (pfs : List (String × Json)) :
    ∀ ps : List String,
      (checkKfParts (some (.obj pfs)) ps = .ok none ↔ ps.all (claimPartOK pfs) = true)
  | [] => by simp [checkKfParts]
  | p :: ps => by
    simp only [checkKfParts, List.all_cons, Bool.and_eq_true]
    cases h : checkJoint (some (.obj pfs)) p with
    | error e =>
      have hiff := checkJoint_ok_iff pfs p
      rw [h] at hiff
      simp at hiff
      simp [hiff]
    | ok o =>
      cases o with
      | none =>
        have hp := (checkJoint_ok_iff pfs p).mp h
        simp [hp, checkKfParts_ok_iff pfs ps]
      | some e =>
        have hiff := checkJoint_ok_iff pfs p
        rw [h] at hiff
        simp at hiff
        simp [hiff]

theorem checkKf_ok_iff (kf : Json) (p : String) (ps : List String) :
    checkKf kf (p :: ps) = .ok none ↔ claimKfOK (p :: ps) kf = true := by
  cases kf with
  | null => simp [checkKf, jsAccess, claimKfOK]
  | bool b => simp [checkKf, jsAccess, claimKfOK, checkKfParts, checkJoint]
  | num q => simp [checkKf, jsAccess, claimKfOK, checkKfParts, checkJoint]
  | str s => simp [checkKf, jsAccess, claimKfOK, checkKfParts, checkJoint]
  | arr items => simp [checkKf, jsAccess, claimKfOK, checkKfParts, checkJoint]
  | obj fs =>
    simp only [checkKf, jsAccess, claimKfOK]
    cases h : jLookup fs "parts" with
    | none => simp [checkKfParts, checkJoint, jsAccess]
    | some v =>
      cases v with
      | obj pfs => exact checkKfParts_ok_iff pfs (p :: ps)
      | null => simp [checkKfParts, checkJoint, jsAccess]
      | bool b => simp [checkKfParts, checkJoint, jsAccess, truthyOpt]
      | num q => simp [checkKfParts, checkJoint, jsAccess, truthyOpt]
      | str s => simp [checkKfParts, checkJoint, jsAccess, truthyOpt]
      | arr l => simp [checkKfParts, checkJoint, jsAccess, truthyOpt]

theorem checkKfs_ok_iff (p : String) (ps : List String) :
    ∀ kfs : List Json,
      (checkKfs (p :: ps) kfs = .ok none ↔ kfs.all (claimKfOK (p :: ps)) = true)
  | [] => by simp [checkKfs]
  | kf :: rest => by
    simp only [checkKfs, List.all_cons, Bool.and_eq_true]
    cases h : checkKf kf (p :: ps) with
    | error e =>
      have hiff := checkKf_ok_iff kf p ps
      rw [h] at hiff
      simp at hiff
      simp [hiff]
    | ok o =>
      cases o with
      | none =>
        have hkf := (checkKf_ok_iff kf p ps).mp h
        simp [hkf, checkKfs_ok_iff p ps rest]
      | some e =>
        have hiff := checkKf_ok_iff kf p ps
        rw [h] at hiff
        simp at hiff
        simp [hiff]

/-- C10.  `validateAnimation` is total (it always returns `valid: true`
or `valid: false` with an error, never letting an exception escape), and
for the rig types `r15` and `r6` it returns `valid: true` exactly when
its argument parses as JSON containing a `keyframes` array in which every
keyframe's `parts` object contains every required part (15 named parts
for r15, 6 for r6), each with a `rot` field that is an array of exactly
3 elements. -/
theorem c10_validateAnimation_correct (parse : Except String Json) (rigType : String)
    (h : rigType = "r15" ∨ rigType = "r6") :
    (validateAnimation parse rigType = .valid ↔
      claimedAnimationValid parse rigType = true) ∧
    (validateAnimation parse rigType = .valid ∨
      ∃ e, validateAnimation parse rigType = .invalid e) := by
  constructor
  · have hparts : ∃ p1 ps1,
        (if rigType = "r15" then r15Parts else r6Parts) = p1 :: ps1 ∧
        claimRequiredParts rigType = p1 :: ps1 := by
      rcases h with rfl | rfl
      · exact ⟨_, _, rfl, rfl⟩
      · exact ⟨_, _, rfl, rfl⟩
    obtain ⟨p1, ps1, hcode, hclaim⟩ := hparts
    simp only [validateAnimation, validateAnimationBody, claimedAnimationValid,
      hcode, hclaim]
    cases parse with
    | error e => simp
    | ok parsed =>
      cases parsed with
      | null => simp [jsAccess]
      | bool b => simp [jsAccess]
      | num q => simp [jsAccess]
      | str s => simp [jsAccess]
      | arr items => simp [jsAccess]
      | obj fs =>
        simp only [jsAccess]
        cases hkf : jLookup fs "keyframes" with
        | none => simp
        | some v =>
          cases v with
          | null => simp
          | bool b => simp
          | num q => simp
          | str s => simp
          | obj fs2 => simp
          | arr kfs =>
            dsimp only
            cases hc : checkKfs (p1 :: ps1) kfs with
            | error e =>
              have hiff := checkKfs_ok_iff p1 ps1 kfs
              rw [hc] at hiff
              simp at hiff
              obtain ⟨x, hx, hfx⟩ := hiff
              simp only [List.all_eq_true]
              constructor
              · intro hcontra
                cases hcontra
              · intro hall
                simp [hall x hx] at hfx
            | ok o =>
              cases o with
              | none =>
                have hall := (checkKfs_ok_iff p1 ps1 kfs).mp hc
                exact iff_of_true rfl hall
              | some e =>
                have hiff := checkKfs_ok_iff p1 ps1 kfs
                rw [hc] at hiff
                simp at hiff
                obtain ⟨x, hx, hfx⟩ := hiff
                simp only [List.all_eq_true]
                constructor
                · intro hcontra
                  cases hcontra
                · intro hall
                  simp [hall x hx] at hfx
  · cases hv : validateAnimation parse rigType with
    | valid => exact Or.inl rfl
    | invalid e => exact Or.inr ⟨e, rfl⟩

/-- Witness for C10 at a concrete well-formed r15 document. -/
theorem c10_validateAnimation_correct_witness :
    ("r15" = "r15" ∨ "r15" = "r6") ∧
    ((validateAnimation (.ok sampleR15Anim) "r15" = .valid ↔
      claimedAnimationValid (.ok sampleR15Anim) "r15" = true) ∧
    (validateAnimation (.ok sampleR15Anim) "r15" = .valid ∨
      ∃ e, validateAnimation (.ok sampleR15Anim) "r15" = .invalid e)) :=
  ⟨Or.inl rfl, c10_validateAnimation_correct (.ok sampleR15Anim) "r15" (Or.inl rfl)⟩

/-- C7.  For every generation type string (the four known types and any
other string hitting the default), the v4.1 per-type
max-completion-token limit is strictly greater than the v4.0 limit. -/
theorem c7_token_limits_increase (t : String) : maxTokensV40 t < maxTokensV41 t := by
  unfold maxTokensV40 maxTokensV41
  split_ifs <;> norm_num

/-- C1 counterexample: the v4.0 PUT handler performs no validation, so a
single PUT of `coins: -5` leaves a negative balance in the ledger,
refuting the claim that every stored balance across GET/PUT/add
sequences is a non-negative integer. -/
theorem c1_put_stores_negative :
    stepV40 ⟨.put, ["api", "coins", "u"], .ok ⟨-5, 0, none, none, none⟩,
        false, .error "", .error ""⟩ [] =
      ([("u", (-5 : Rat))], ⟨200, some (-5)⟩) ∧ ((-5 : Rat) < 0) := by
  refine ⟨rfl, by norm_num⟩

/-- C1 amended: in the validating revision (part_001 / v4.1), every coin
balance reachable by any sequence of requests from a non-negative store
is a non-negative number (not necessarily an integer); the v4.0 and
part_000 revisions accept unvalidated PUT bodies and can store negative
values. -/
theorem c1_v70_balances_nonneg (reqs : List Request) (st : CoinStore)
    (h : ∀ p ∈ st, 0 ≤ p.2) : ∀ p ∈ runV70 reqs st, 0 ≤ p.2 := by
  induction reqs generalizing st with
  | nil => exact h
  | cons r rs ih =>
    simp only [runV70, List.foldl]
    exact ih _ (stepV70_preserves_nonneg r st h)

/-- Witness for C1 at a concrete PUT-then-add sequence from the empty
store. -/
theorem c1_v70_balances_nonneg_witness :
    (∀ p ∈ ([] : CoinStore), 0 ≤ p.2) ∧
    (∀ p ∈ runV70
      [⟨.put, ["api", "coins", "z"], .ok ⟨4, 0, none, none, none⟩,
        true, .error "", .error ""⟩,
       ⟨.post, ["api", "coins", "z", "add"], .ok ⟨0, 6, none, none, none⟩,
        true, .error "", .error ""⟩] [], 0 ≤ p.2) :=
  ⟨by simp, c1_v70_balances_nonneg _ [] (by simp)⟩

/-- C2 counterexample: in v4.0 a balance of 0 is reachable (PUT is
unvalidated), and `userCoins.get(userId) || STARTING_COINS` then treats
the stored 0 as absent, so adding 5 to a user with balance 0 stores and
returns 105, not 0 + 5. -/
theorem c2_add_zero_balance_uses_default :
    (stepV40 ⟨.put, ["api", "coins", "u"], .ok ⟨0, 0, none, none, none⟩,
        false, .error "", .error ""⟩ []).1 = [("u", (0 : Rat))] ∧
    stepV40 ⟨.post, ["api", "coins", "u", "add"], .ok ⟨0, 5, none, none, none⟩,
        false, .error "", .error ""⟩ [("u", (0 : Rat))] =
      ([("u", (105 : Rat))], ⟨200, some 105⟩) ∧
    (105 : Rat) ≠ 0 + 5 := by
  refine ⟨rfl, ?_, by norm_num⟩
  norm_num [stepV40, handleAddV40, currentOr100, alookup, aset, seg3]
  all_goals decide

/-- C2 amended: in the memory-backed revisions POST /add stores and
returns b + a when the stored balance b is a nonzero number, and
100 + a when the user is absent or the stored balance is 0 (the falsy
default `|| STARTING_COINS`); in the SQL revision an absent user's
balance becomes a, not 100 + a. -/
theorem c2_add_amended :
    (∀ (st : CoinStore) (u : String) (a b : Rat) (sp pr rg : Option String),
      alookup st u = some b → b ≠ 0 →
      handleAddV40 st u (.ok ⟨0, a, sp, pr, rg⟩) =
        (aset st u (b + a), ⟨200, some (b + a)⟩)) ∧
    (∀ (st : CoinStore) (u : String) (a : Rat) (sp pr rg : Option String),
      alookup st u = none →
      handleAddV40 st u (.ok ⟨0, a, sp, pr, rg⟩) =
        (aset st u (100 + a), ⟨200, some (100 + a)⟩)) ∧
    (∀ (st : CoinStore) (u : String) (a : Rat) (sp pr rg : Option String),
      alookup st u = some 0 →
      handleAddV40 st u (.ok ⟨0, a, sp, pr, rg⟩) =
        (aset st u (100 + a), ⟨200, some (100 + a)⟩)) ∧
    (∀ (tbl : SqlTable) (u : String) (a : Rat) (now : Nat),
      alookup tbl u = none → sqlAddCoins tbl u a now = (aset tbl u ⟨a, now⟩, a)) := by
  refine ⟨?_, ?_, ?_, ?_⟩
  · intro st u a b sp pr rg hb hb0
    simp [handleAddV40, currentOr100, hb, hb0]
  · intro st u a sp pr rg hb
    simp [handleAddV40, currentOr100, hb]
  · intro st u a sp pr rg hb
    simp [handleAddV40, currentOr100, hb]
  · intro tbl u a now hb
    simp [sqlAddCoins, hb]

/-- Witness for C2 at a user with a nonzero stored balance. -/
theorem c2_add_amended_witness :
    alookup [("v", (7 : Rat))] "v" = some 7 ∧ (7 : Rat) ≠ 0 ∧
    handleAddV40 [("v", (7 : Rat))] "v" (.ok ⟨0, 2, none, none, none⟩) =
      (aset [("v", (7 : Rat))] "v" (7 + 2), ⟨200, some (7 + 2)⟩) :=
  ⟨by decide, by decide,
    c2_add_amended.1 [("v", 7)] "v" 2 7 none none none (by decide) (by decide)⟩

/-- C3 counterexample: in the Firebase revision (part_004), a GET for a
user id absent from the store answers 100 coins (`isNew: true`) but
performs no write, so no record is created, refuting the claim that a
first GET creates the record. -/
theorem c3_firebase_get_does_not_create :
    fbGetCoins [] "77" = ([], (100, true)) ∧ alookup ([] : FbStore) "77" = none :=
  ⟨rfl, rfl⟩

/-- C3 amended: in the memory-map and SQL revisions a GET for an absent
user creates the record with balance 100 and responds 100; in the
Firebase revision it responds 100 (`isNew: true`) without creating a
record. -/
theorem c3_get_amended :
    (∀ (st : CoinStore) (u : String), alookup st u = none →
      handleGetV40 st u = (aset st u 100, ⟨200, some 100⟩)) ∧
    (∀ (tbl : SqlTable) (u : String) (now : Nat), alookup tbl u = none →
      sqlGetCoins tbl u now = (aset tbl u ⟨100, now⟩, 100)) ∧
    (∀ (db : FbStore) (u : String), alookup db u = none →
      fbGetCoins db u = (db, (100, true))) := by
  refine ⟨?_, ?_, ?_⟩
  · intro st u hu
    simp [handleGetV40, hu]
  · intro tbl u now hu
    simp [sqlGetCoins, hu]
  · intro db u hu
    simp [fbGetCoins, hu]

/-- Witness for C3 on the empty memory store. -/
theorem c3_get_amended_witness :
    alookup ([] : CoinStore) "w" = none ∧
    handleGetV40 [] "w" = (aset [] "w" 100, ⟨200, some 100⟩) :=
  ⟨rfl, c3_get_amended.1 [] "w" rfl⟩

/-- C6 counterexample: the memory-map backends store a bare number per
user — `userCoins.set(userId, newTotal)` writes 105 here and nothing
else — so there is no `last_updated` field to update, refuting the claim
for the memory backend. -/
theorem c6_memory_add_stores_bare_number :
    handleAddV40 [("u", (5 : Rat))] "u" (.ok ⟨0, 100, none, none, none⟩) =
      ([("u", (105 : Rat))], ⟨200, some 105⟩) := by
  norm_num [handleAddV40, currentOr100, alookup, aset]

/-- C6 amended: the SQL backend sets `last_updated = CURRENT_TIMESTAMP`
on both PUT and add, and the Firebase backend writes
`lastUpdated = Date.now()` on PUT; the in-memory backends store a bare
number and track no timestamp at all. -/
theorem c6_timestamps_amended :
    (∀ (tbl : SqlTable) (u : String) (c : Rat) (now : Nat),
      alookup (sqlPutCoins tbl u c now).1 u = some ⟨c, now⟩) ∧
    (∀ (tbl : SqlTable) (u : String) (a : Rat) (now : Nat),
      ∃ c, alookup (sqlAddCoins tbl u a now).1 u = some ⟨c, now⟩) ∧
    (∀ (db : FbStore) (u : String) (c : Rat) (now : Nat),
      alookup (fbPutCoins db u c now).1 u = some ⟨c, now, jsParseInt u⟩) ∧
    (∀ (st : CoinStore) (u : String) (a : Rat) (sp pr rg : Option String),
      (handleAddV40 st u (.ok ⟨0, a, sp, pr, rg⟩)).1 =
        aset st u (currentOr100 st u + a)) := by
  refine ⟨?_, ?_, ?_, ?_⟩
  · intro tbl u c now
    simp [sqlPutCoins, alookup_aset_self]
  · intro tbl u a now
    cases hb : alookup tbl u with
    | none => exact ⟨a, by simp [sqlAddCoins, hb, alookup_aset_self]⟩
    | some r => exact ⟨r.coins + a, by simp [sqlAddCoins, hb, alookup_aset_self]⟩
  · intro db u c now
    simp [fbPutCoins, alookup_aset_self]
  · intro st u a sp pr rg
    simp [handleAddV40]

/-- C4 counterexample: at a concrete request whose primary output fails
validation and whose retry output also fails, the handler makes exactly
two model calls, and both use the same model identifier `gpt-5.1` — the
retry does not use a different model than the primary call. -/
theorem c4_retry_same_model :
    (animationFlow "r15" none (.ok none)).2 = ["gpt-5.1", "gpt-5.1"] ∧
    ¬ (["gpt-5.1", "gpt-5.1"] : List String).Nodup :=
  ⟨rfl, by decide⟩

/-- C4 amended: when the primary model's animation output fails schema
validation the handler performs exactly one retry — with the same model
name `gpt-5.1` as the primary call, despite the `retryWithMini` name —
and if the retry's output also fails validation (or the retry throws)
the request fails with a 500, so at most two model calls are ever made
per request. -/
theorem c4_retry_amended (rig : String) (c0 : Option JsStr)
    (retryO : Except String (Option JsStr)) :
    ((animationFlow rig c0 retryO).2.length ≤ 2) ∧
    (∀ m ∈ (animationFlow rig c0 retryO).2, m = "gpt-5.1") ∧
    ((animationFlow rig c0 retryO).2.length = 2 ↔
      ¬ validateAnimation (parseOf c0) rig = .valid) ∧
    ((¬ validateAnimation (parseOf c0) rig = .valid ∧
        ∀ c1, retryO = .ok c1 → ¬ validateAnimation (parseOf c1) rig = .valid) →
      (animationFlow rig c0 retryO).1 = .failure500) := by
  by_cases hv : validateAnimation (parseOf c0) rig = .valid
  · refine ⟨?_, ?_, ?_, ?_⟩
    · simp [animationFlow, hv, finishFlow_calls]
    · simp [animationFlow, hv, finishFlow_calls]
    · simp [animationFlow, hv, finishFlow_calls]
    · intro hcon
      exact absurd hv hcon.1
  · cases retryO with
    | error e =>
      refine ⟨?_, ?_, ?_, ?_⟩ <;> simp [animationFlow, hv]
    | ok c1 =>
      by_cases hv1 : validateAnimation (parseOf c1) rig = .valid
      · refine ⟨?_, ?_, ?_, ?_⟩
        · simp [animationFlow, hv, hv1, finishFlow_calls]
        · simp [animationFlow, hv, hv1, finishFlow_calls]
        · simp [animationFlow, hv, hv1, finishFlow_calls]
        · intro hcon
          exact absurd hv1 (hcon.2 c1 rfl)
      · refine ⟨?_, ?_, ?_, ?_⟩ <;> simp [animationFlow, hv, hv1]

/-- Witness for C4: a run where the primary fails validation and the
retry throws ends in a 500. -/
theorem c4_retry_amended_witness :
    (animationFlow "r6" none (.error "boom")).1 = .failure500 :=
  (c4_retry_amended "r6" none (.error "boom")).2.2.2
    ⟨by decide, fun c1 h => Except.noConfusion h⟩

/-- C5.  A POST to a generation endpoint `/api/generate/:type` for any of
the four generation types leaves the coin ledger exactly unchanged,
whatever the body, the API-key environment, the vendor outcome or the
retry outcome — in both the v4.0 revision and the part_001 revision. -/
theorem c5_generate_preserves_ledger (st : CoinStore) (t : String)
    (b : Except String ReqBody) (k : Bool) (vnd : Except String VendorResp)
    (rty : Except String (Option JsStr)) (ht : t ∈ validTypes) :
    (stepV40 ⟨.post, ["api", "generate", t], b, k, vnd, rty⟩ st).1 = st ∧
    (stepV70 ⟨.post, ["api", "generate", t], b, k, vnd, rty⟩ st).1 = st := by
  have ht4 : t = "animation" ∨ t = "vfx" ∨ t = "script" ∨ t = "ui" := by
    simpa [validTypes] using ht
  rcases ht4 with rfl | rfl | rfl | rfl <;> exact ⟨rfl, rfl⟩

/-- Witness for C5 at the vfx endpoint with an unparseable body. -/
theorem c5_generate_preserves_ledger_witness :
    ("vfx" ∈ validTypes) ∧
    ((stepV40 ⟨.post, ["api", "generate", "vfx"], .error "x", true,
        .error "", .error ""⟩ [("u", (3 : Rat))]).1 = [("u", (3 : Rat))] ∧
     (stepV70 ⟨.post, ["api", "generate", "vfx"], .error "x", true,
        .error "", .error ""⟩ [("u", (3 : Rat))]).1 = [("u", (3 : Rat))]) :=
  ⟨by decide,
    c5_generate_preserves_ledger [("u", 3)] "vfx" (.error "x") true
      (.error "") (.error "") (by decide)⟩

theorem runChecks_from_entry (u : String) :
    ∀ (ts : List Nat) (st : RLState) (c r : Nat),
      alookup st u = some ⟨c, r⟩ → (∀ t ∈ ts, t ≤ r) →
      runChecks u ts st = (List.range ts.length).map (fun i => decide (c + i < 20))
  | [], _, _, _, _, _ => rfl
  | t :: ts, st, c, r, hl, hw => by
    have hnl : ¬ r < t := not_lt.mpr (hw t (List.mem_cons_self t ts))
    have hwts : ∀ x ∈ ts, x ≤ r := fun x hx => hw x (List.mem_cons_of_mem _ hx)
    simp only [runChecks, checkRateLimit, hl, Option.getD_some, if_neg hnl]
    by_cases hc : 20 ≤ c
    · rw [if_pos hc]
      dsimp only
      rw [runChecks_from_entry u ts st c r hl hwts]
      rw [List.length_cons, List.range_succ_eq_map, List.map_cons, List.map_map]
      congr 1
      · have h20 : ¬ (c + 0 < 20) := by omega
        simp [h20]
        omega
      · apply List.map_congr_left
        intro i _
        have h1 : ¬ (c + i < 20) := by omega
        have h2 : ¬ (c + (i + 1) < 20) := by omega
        simp [Function.comp, Nat.succ_eq_add_one, h1, h2]
    · rw [if_neg hc]
      dsimp only
      rw [runChecks_from_entry u ts (aset st u ⟨c + 1, r⟩) (c + 1) r
        (alookup_aset_self st u ⟨c + 1, r⟩) hwts]
      rw [List.length_cons, List.range_succ_eq_map, List.map_cons, List.map_map]
      congr 1
      · have h20 : c + 0 < 20 := by omega
        simp [h20]
        omega
      · apply List.map_congr_left
        intro i _
        have h12 : c + 1 + i = c + (i + 1) := by omega
        simp [Function.comp, Nat.succ_eq_add_one, h12]

/-- C8.  Starting from a state where the user is absent, a first checked
request at time t0 followed by further checks all within the window
(at times ≤ t0 + 60000) are admitted for exactly the first 20 calls and
refused afterwards; and a check for a different user never changes this
user's rate-limit entry. -/
theorem c8_rate_limit_window (st0 : RLState) (u : String) (t0 : Nat) (ts : List Nat)
    (h0 : alookup st0 u = none) (hw : ∀ t ∈ ts, t ≤ t0 + 60000) :
    runChecks u (t0 :: ts) st0 =
      (List.range (ts.length + 1)).map (fun i => decide (i < 20)) ∧
    (∀ (v : String) (now : Nat) (st : RLState), v ≠ u →
      alookup (checkRateLimit now v st).2 u = alookup st u) := by
  constructor
  · have hd1 : ¬ (t0 + 60000 < t0) := by omega
    have hd2 : ¬ (20 ≤ 0) := by omega
    simp only [runChecks, checkRateLimit, h0, Option.getD_none, if_neg hd1, if_neg hd2]
    have hentry : alookup (aset st0 u ⟨0 + 1, t0 + 60000⟩) u =
        some ⟨1, t0 + 60000⟩ := by
      rw [alookup_aset_self]
    rw [runChecks_from_entry u ts _ 1 (t0 + 60000) hentry hw]
    rw [List.range_succ_eq_map, List.map_cons, List.map_map]
    congr 1
    · apply List.map_congr_left
      intro i _
      have h1i : 1 + i = i + 1 := by omega
      simp [Function.comp, Nat.succ_eq_add_one, h1i]
  · intro v now st hvu
    simp only [checkRateLimit]
    split_ifs with hr hc
    · exact alookup_aset_ne st u v _ hvu.symm
    · rfl
    · exact alookup_aset_ne st u v _ hvu.symm

/-- Witness for C8: 25 calls for one user inside a single window from the
empty state — the first 20 admitted, the last 5 refused. -/
theorem c8_rate_limit_window_witness :
    alookup ([] : RLState) "a" = none ∧
    runChecks "a" (0 :: List.replicate 24 60000) [] =
      (List.range 25).map (fun i => decide (i < 20)) := by
  refine ⟨rfl, ?_⟩
  have h := c8_rate_limit_window [] "a" 0 (List.replicate 24 60000) rfl (by
    intro x hx
    have hx60 := List.eq_of_mem_replicate hx
    omega)
  simpa using h.1

/-- C9.  A PUT or POST /add request whose body fails to parse as JSON is
answered with status 400 and leaves the v4.0 coin ledger exactly
unchanged. -/
theorem c9_parse_failure_atomic (st : CoinStore) (u e : String) (hu : u ≠ "add")
    (k : Bool) (vnd : Except String VendorResp) (rty : Except String (Option JsStr)) :
    stepV40 ⟨.put, ["api", "coins", u], .error e, k, vnd, rty⟩ st = (st, ⟨400, none⟩) ∧
    stepV40 ⟨.post, ["api", "coins", u, "add"], .error e, k, vnd, rty⟩ st =
      (st, ⟨400, none⟩) := by
  constructor
  · simp [stepV40, handlePutV40, lastSeg, hu]
  · simp [stepV40, handleAddV40, lastSeg, seg3]

/-- Witness for C9 at a concrete user and store. -/
theorem c9_parse_failure_atomic_witness :
    ("x" : String) ≠ "add" ∧
    (stepV40 ⟨.put, ["api", "coins", "x"], .error "bad", true, .error "", .error ""⟩
        [("y", (3 : Rat))] = ([("y", 3)], ⟨400, none⟩) ∧
     stepV40 ⟨.post, ["api", "coins", "x", "add"], .error "bad", true,
        .error "", .error ""⟩ [("y", (3 : Rat))] = ([("y", 3)], ⟨400, none⟩)) :=
  ⟨by decide,
    c9_parse_failure_atomic [("y", 3)] "x" "bad" (by decide) true (.error "") (.error "")⟩

end EzCode
